import Mathlib

/-! WiFi station connection manager (components/wifi_helper).

A shallow embedding of `components/wifi_helper/src/wifi_helper.c`:

* the file-scope statics (`s_wifi_event_group`, `s_sta_netif`, `s_connected`,
  `s_retry_num`) become the record `WifiState`;
* `event_handler` becomes a step function that returns the new state together
  with the number of `esp_wifi_connect()` calls it made;
* `wifi_helper_connect` becomes a function of the results of the external
  calls it makes, returning its result code and the list of calls performed;
* `wifi_helper_get_ip_string` becomes a function of the statics, the buffer
  pointer and the answer of the live interface query.

`WIFI_MAX_RETRY` comes from the user-supplied `wifi_config.h` (default `5`),
so it is a parameter `max_retries` of the handler.

The math helpers `map_range` and `constrain` of
`components/helpers/src/helpers.c` follow, over 32-bit `int` arithmetic.
-/

namespace WifiHelper

/-! ## Constants of the platform headers -/

/-- Result code `ESP_OK` of `esp_err.h`. -/
def ESP_OK : Int := 0

/-- Result code `ESP_FAIL` of `esp_err.h`. -/
def ESP_FAIL : Int := -1

/-- Result code `ESP_ERR_TIMEOUT` of `esp_err.h` (`0x107`). -/
def ESP_ERR_TIMEOUT : Int := 0x107

/-- Bit mask `BIT0`. -/
def BIT0 : Nat := 1

/-- Bit mask `BIT1`. -/
def BIT1 : Nat := 2

/-- Flag `WIFI_CONNECTED_BIT` (wifi_helper.c line 52). -/
def WIFI_CONNECTED_BIT : Nat := BIT0

/-- Flag `WIFI_FAIL_BIT` (wifi_helper.c line 53). -/
def WIFI_FAIL_BIT : Nat := BIT1

/-- Event families (`esp_event_base_t`): the two the handler compares against,
and any other family, told apart by a tag. -/
inductive esp_event_base_t where
  | WIFI_EVENT : esp_event_base_t
  | IP_EVENT : esp_event_base_t
  | OTHER_EVENT (tag : Nat) : esp_event_base_t
  deriving DecidableEq, Repr

open esp_event_base_t

/-- Event id `WIFI_EVENT_STA_START` of `wifi_event_t`. -/
def WIFI_EVENT_STA_START : Int := 2

/-- Event id `WIFI_EVENT_STA_DISCONNECTED` of `wifi_event_t`. -/
def WIFI_EVENT_STA_DISCONNECTED : Int := 5

/-- Event id `IP_EVENT_STA_GOT_IP` of `ip_event_t`. -/
def IP_EVENT_STA_GOT_IP : Int := 0

/-! ## State -/

/-- The file-scope statics of wifi_helper.c (lines 48-55).  `event_bits` is the
flag word held by the event group `s_wifi_event_group` refers to; `s_sta_netif`
is `none` for a NULL handle. -/
structure WifiState where
  event_bits : Nat
  s_sta_netif : Option Nat
  s_connected : Bool
  s_retry_num : Int
  deriving DecidableEq, Repr

/-- State when the handler is registered by the first `wifi_helper_connect`:
a freshly created event group (no bit set), the statics `s_connected = false`
and `s_retry_num = 0`, and the interface handle `netif`. -/
def initial_state (netif : Option Nat) : WifiState :=
  { event_bits := 0, s_sta_netif := netif, s_connected := false, s_retry_num := 0 }

/-- Effect of `xEventGroupSetBits(group, mask)` on the flag word. -/
def xEventGroupSetBits (bits mask : Nat) : Nat := bits ||| mask

/-- The C test `bits & mask` (non-zero is true). -/
def bit_test (bits mask : Nat) : Bool := bits &&& mask != 0

/-- Connected terminal flag of a state. -/
def connected_flag (s : WifiState) : Bool := bit_test s.event_bits WIFI_CONNECTED_BIT

/-- Failed terminal flag of a state. -/
def failed_flag (s : WifiState) : Bool := bit_test s.event_bits WIFI_FAIL_BIT

/-! ## event_handler (wifi_helper.c lines 57-79) -/

/-- An event as delivered to the handler: family and id. -/
abbrev Event := esp_event_base_t × Int

/-- The handler `event_handler`.  The result is the new state and the number of
`esp_wifi_connect()` calls made.  The increment `s_retry_num++` happens only
under `s_retry_num < WIFI_MAX_RETRY`, so it cannot leave the range of `int`. -/
def event_handler (max_retries : Int) (s : WifiState) (event_base : esp_event_base_t)
    (event_id : Int) : WifiState × Nat :=
  if event_base = WIFI_EVENT ∧ event_id = WIFI_EVENT_STA_START then
    (s, 1)
  else if event_base = WIFI_EVENT ∧ event_id = WIFI_EVENT_STA_DISCONNECTED then
    if s.s_retry_num < max_retries then
      ({ s with s_retry_num := s.s_retry_num + 1, s_connected := false }, 1)
    else
      ({ s with event_bits := xEventGroupSetBits s.event_bits WIFI_FAIL_BIT,
                s_connected := false }, 0)
  else if event_base = IP_EVENT ∧ event_id = IP_EVENT_STA_GOT_IP then
    ({ s with s_retry_num := 0, s_connected := true,
              event_bits := xEventGroupSetBits s.event_bits WIFI_CONNECTED_BIT }, 0)
  else
    (s, 0)

/-- Station-started event. -/
def sta_start : Event := (WIFI_EVENT, WIFI_EVENT_STA_START)

/-- Station-disconnected event. -/
def sta_disconnected : Event := (WIFI_EVENT, WIFI_EVENT_STA_DISCONNECTED)

/-- Got-IP event. -/
def got_ip : Event := (IP_EVENT, IP_EVENT_STA_GOT_IP)

/-- Serial delivery of a list of events by the dispatch context: the state after
the last one and the total number of `esp_wifi_connect()` calls. -/
def dispatch (max_retries : Int) : WifiState × Nat → List Event → WifiState × Nat
  | acc, [] => acc
  | (s, n), (event_base, event_id) :: rest =>
    let r := event_handler max_retries s event_base event_id
    dispatch max_retries (r.1, n + r.2) rest

/-- Events delivered from a state, counting connect requests from zero. -/
def run (max_retries : Int) (s : WifiState) (events : List Event) : WifiState × Nat :=
  dispatch max_retries (s, 0) events

/-! ## wifi_helper_connect (lines 81-135) -/

/-- The mapping of the flag word returned by `xEventGroupWaitBits` to the result
code (lines 125-134). -/
def connect_result (bits : Nat) : Int :=
  if bit_test bits WIFI_CONNECTED_BIT then ESP_OK
  else if bit_test bits WIFI_FAIL_BIT then ESP_FAIL
  else ESP_ERR_TIMEOUT

/-- The external calls `wifi_helper_connect` makes, in the order of the source. -/
inductive Call where
  | xEventGroupCreate
  | esp_netif_init
  | esp_event_loop_create_default
  | esp_netif_create_default_wifi_sta
  | esp_wifi_init
  | esp_event_handler_instance_register (event_base : esp_event_base_t) (event_id : Int)
  | esp_wifi_set_mode
  | esp_wifi_set_config
  | esp_wifi_start
  | xEventGroupWaitBits
  deriving DecidableEq, Repr

/-- Wildcard id `ESP_EVENT_ANY_ID` of `esp_event.h`. -/
def ESP_EVENT_ANY_ID : Int := -1

/-- What the platform answers to the calls of `wifi_helper_connect`: the handle
returned by `xEventGroupCreate` (`none` for NULL), the status of each checked
call, the interface handle, and the events the dispatch context delivers to the
registered handler before `xEventGroupWaitBits` returns. -/
structure ConnectEnv where
  event_group : Option Nat
  netif_init_status : Int
  event_loop_status : Int
  sta_netif : Option Nat
  wifi_init_status : Int
  register_any_id_status : Int
  register_got_ip_status : Int
  set_mode_status : Int
  set_config_status : Int
  wifi_start_status : Int
  events : List Event

/-- Result of running `wifi_helper_connect`: the returned code (`none` when an
`ESP_ERROR_CHECK` aborted the process), the external calls performed, in order,
and the statics afterwards. -/
structure ConnectRun where
  ret : Option Int
  calls : List Call
  state : WifiState
  deriving DecidableEq, Repr

/-- Value `pdFALSE` of FreeRTOS. -/
def pdFALSE : Bool := false

/-- The return of `xEventGroupWaitBits(group, mask, xClearOnExit, xWaitForAllBits,
ticks)` of FreeRTOS, given the flag word `bits` of the group at the moment the
wait ends (condition met or time out): the value returned, and the flag word
left in the group.  The bits of `mask` are cleared on exit only when
`xClearOnExit` is set and the wait condition was met. -/
def xEventGroupWaitBits (bits mask : Nat) (xClearOnExit xWaitForAllBits : Bool) : Nat × Nat :=
  let met : Bool := if xWaitForAllBits then bits &&& mask == mask else bits &&& mask != 0
  (bits, if xClearOnExit && met then bits ^^^ (bits &&& mask) else bits)

/-- The function `wifi_helper_connect`, run from statics `s`.  `ESP_ERROR_CHECK`
aborts on any status other than `ESP_OK`.  The wait ends on the flag word of the
event group after the delivered events. -/
def wifi_helper_connect (max_retries : Int) (env : ConnectEnv) (s : WifiState) : ConnectRun :=
  match env.event_group with
  | none => { ret := some ESP_FAIL, calls := [Call.xEventGroupCreate], state := s }
  | some _ =>
    let s1 : WifiState := { s with event_bits := 0 }
    let c1 := [Call.xEventGroupCreate, Call.esp_netif_init]
    if env.netif_init_status ≠ ESP_OK then { ret := none, calls := c1, state := s1 } else
    let c2 := c1 ++ [Call.esp_event_loop_create_default]
    if env.event_loop_status ≠ ESP_OK then { ret := none, calls := c2, state := s1 } else
    let s2 : WifiState := { s1 with s_sta_netif := env.sta_netif }
    let c3 := c2 ++ [Call.esp_netif_create_default_wifi_sta, Call.esp_wifi_init]
    if env.wifi_init_status ≠ ESP_OK then { ret := none, calls := c3, state := s2 } else
    let c4 := c3 ++ [Call.esp_event_handler_instance_register WIFI_EVENT ESP_EVENT_ANY_ID]
    if env.register_any_id_status ≠ ESP_OK then { ret := none, calls := c4, state := s2 } else
    let c5 := c4 ++ [Call.esp_event_handler_instance_register IP_EVENT IP_EVENT_STA_GOT_IP]
    if env.register_got_ip_status ≠ ESP_OK then { ret := none, calls := c5, state := s2 } else
    let c6 := c5 ++ [Call.esp_wifi_set_mode]
    if env.set_mode_status ≠ ESP_OK then { ret := none, calls := c6, state := s2 } else
    let c7 := c6 ++ [Call.esp_wifi_set_config]
    if env.set_config_status ≠ ESP_OK then { ret := none, calls := c7, state := s2 } else
    let c8 := c7 ++ [Call.esp_wifi_start]
    if env.wifi_start_status ≠ ESP_OK then { ret := none, calls := c8, state := s2 } else
    let s3 := (run max_retries s2 env.events).1
    let w := xEventGroupWaitBits s3.event_bits (WIFI_CONNECTED_BIT ||| WIFI_FAIL_BIT)
      pdFALSE pdFALSE
    { ret := some (connect_result w.1),
      calls := c8 ++ [Call.xEventGroupWaitBits],
      state := { s3 with event_bits := w.2 } }

/-! ## Status queries (lines 137-154) -/

/-- The function `wifi_helper_is_connected`. -/
def wifi_helper_is_connected (s : WifiState) : Bool := s.s_connected

/-- Conversion `%d` of a C `int`. -/
def format_d (n : Int) : List Char :=
  if n < 0 then '-' :: Nat.toDigits 10 n.natAbs else Nat.toDigits 10 n.natAbs

/-- The part of `sprintf` the source uses: a format of plain characters and `%d`
conversions, each `%d` consuming the next `int` argument. -/
def sprintf : List Char → List Int → List Char
  | [], _ => []
  | '%' :: 'd' :: fmt, a :: args => format_d a ++ sprintf fmt args
  | c :: fmt, args => c :: sprintf fmt args

/-- Format `IPSTR` of `esp_netif_ip_addr.h`. -/
def IPSTR : List Char := "%d.%d.%d.%d".toList

/-- Byte `idx` of a 32-bit address in memory order (`esp_ip4_addr_get_byte`; the
targets are little-endian). -/
def esp_ip4_addr_get_byte (addr idx : Nat) : Nat := (addr / 256 ^ idx) % 256

/-- Argument list `IP2STR(&ip)` of `esp_netif_ip_addr.h`: the four bytes of the
address, each widened to `int`. -/
def IP2STR (addr : Nat) : List Int :=
  [(esp_ip4_addr_get_byte addr 0 : Int), (esp_ip4_addr_get_byte addr 1 : Int),
   (esp_ip4_addr_get_byte addr 2 : Int), (esp_ip4_addr_get_byte addr 3 : Int)]

/-- The 32-bit address whose bytes in memory order are `a`, `b`, `c`, `d`. -/
def ip4_addr (a b c d : Nat) : Nat := a + 256 * b + 65536 * c + 16777216 * d

/-- Result of `wifi_helper_get_ip_string`: the returned code, whether
`esp_netif_get_ip_info` was called, and the text `sprintf` stored in the buffer
(`none` when the buffer was not written). -/
structure IpStringRun where
  ret : Int
  queried : Bool
  written : Option (List Char)
  deriving DecidableEq, Repr

/-- The function `wifi_helper_get_ip_string`.  `ip_str` is `none` for a NULL
pointer and otherwise the current content of the buffer; `esp_netif_get_ip_info`
answers, for an interface handle, a status and the address it stored. -/
def wifi_helper_get_ip_string (s : WifiState) (ip_str : Option (List Char))
    (esp_netif_get_ip_info : Nat → Int × Nat) : IpStringRun :=
  match s.s_connected, s.s_sta_netif, ip_str with
  | true, some netif, some _ =>
    let r := esp_netif_get_ip_info netif
    if r.1 = ESP_OK then
      { ret := r.1, queried := true, written := some (sprintf IPSTR (IP2STR r.2)) }
    else
      { ret := r.1, queried := true, written := none }
  | _, _, _ => { ret := ESP_FAIL, queried := false, written := none }

/-- Content of the caller's buffer after a call, given its content before. -/
def buffer_after (ip_str : Option (List Char)) (r : IpStringRun) : Option (List Char) :=
  match ip_str, r.written with
  | some _, some text => some text
  | old, _ => old

/-- Decimal numeral of a natural number. -/
def numeral (n : Nat) : List Char := Nat.toDigits 10 n

/-- All set-up steps of `wifi_helper_connect` succeed: the event group is
allocated and every checked call reports `ESP_OK`. -/
def setup_succeeds (env : ConnectEnv) : Prop :=
  env.event_group ≠ none ∧ env.netif_init_status = ESP_OK ∧ env.event_loop_status = ESP_OK ∧
  env.wifi_init_status = ESP_OK ∧ env.register_any_id_status = ESP_OK ∧
  env.register_got_ip_status = ESP_OK ∧ env.set_mode_status = ESP_OK ∧
  env.set_config_status = ESP_OK ∧ env.wifi_start_status = ESP_OK

/-- A platform on which every set-up step succeeds, with event group handle
`1`, interface handle `netif`, and the given events delivered during the wait. -/
def working_env (netif : Option Nat) (events : List Event) : ConnectEnv :=
  { event_group := some 1, netif_init_status := ESP_OK, event_loop_status := ESP_OK,
    sta_netif := netif, wifi_init_status := ESP_OK, register_any_id_status := ESP_OK,
    register_got_ip_status := ESP_OK, set_mode_status := ESP_OK,
    set_config_status := ESP_OK, wifi_start_status := ESP_OK, events := events }

/-- The calls of a complete run of `wifi_helper_connect`, in order. -/
def all_calls : List Call :=
  [Call.xEventGroupCreate, Call.esp_netif_init, Call.esp_event_loop_create_default,
   Call.esp_netif_create_default_wifi_sta, Call.esp_wifi_init,
   Call.esp_event_handler_instance_register WIFI_EVENT ESP_EVENT_ANY_ID,
   Call.esp_event_handler_instance_register IP_EVENT IP_EVENT_STA_GOT_IP,
   Call.esp_wifi_set_mode, Call.esp_wifi_set_config, Call.esp_wifi_start,
   Call.xEventGroupWaitBits]

end WifiHelper

/-! ## Machine integers -/

namespace MachineInt

/-- Least value `INT_MIN` of the 32-bit `int` of the targets. -/
def INT_MIN : Int := -2147483648

/-- Greatest value `INT_MAX` of the 32-bit `int` of the targets. -/
def INT_MAX : Int := 2147483647

/-- A mathematical integer that an `int` can hold. -/
def in_int_range (x : Int) : Prop := INT_MIN ≤ x ∧ x ≤ INT_MAX

instance in_int_range_decidable (x : Int) : Decidable (in_int_range x) :=
  inferInstanceAs (Decidable (INT_MIN ≤ x ∧ x ≤ INT_MAX))

/-- The `int` an arithmetic result is stored as: reduction modulo `2 ^ 32` into
`INT_MIN .. INT_MAX` (two's complement). -/
def wrap_int (x : Int) : Int := (x + 2147483648) % 4294967296 - 2147483648

end MachineInt

/-! ## Math helpers (components/helpers/src/helpers.c lines 110-124) -/

namespace Helpers

open MachineInt

/-- The function `map_range` (helpers.c lines 111-114):
`(value - in_min) * (out_max - out_min) / (in_max - in_min) + out_min`, each
operation on `int`, the division truncating toward zero.  The result is `none`
when the divisor is zero, where C leaves the division undefined. -/
def map_range (value in_min in_max out_min out_max : Int) : Option Int :=
  let product := wrap_int (wrap_int (value - in_min) * wrap_int (out_max - out_min))
  let divisor := wrap_int (in_max - in_min)
  if divisor = 0 then none
  else some (wrap_int (wrap_int (Int.tdiv product divisor) + out_min))

/-- The function `constrain` (helpers.c lines 116-124). -/
def constrain (value min max : Int) : Int :=
  if value < min then min
  else if value > max then max
  else value

end Helpers

namespace WifiHelper

open esp_event_base_t

/-! ## Lemmas on the flag word -/

theorem bit_test_zero (mask : Nat) : bit_test 0 mask = false := by
  simp [bit_test]

theorem bit_test_connected_iff (bits : Nat) :
    bit_test bits WIFI_CONNECTED_BIT = bits.testBit 0 := by
  have h : bits &&& 1 = bits % 2 := Nat.and_one_is_mod bits
  simp only [bit_test, WIFI_CONNECTED_BIT, BIT0, h, Nat.testBit_zero]
  rcases Nat.mod_two_eq_zero_or_one bits with h0 | h1
  · simp [h0]
  · simp [h1]

theorem bit_test_fail_iff (bits : Nat) :
    bit_test bits WIFI_FAIL_BIT = bits.testBit 1 := by
  have h : bits &&& 2 = (bits.testBit 1).toNat * 2 := by
    have := Nat.and_two_pow bits 1
    simpa using this
  simp only [bit_test, WIFI_FAIL_BIT, BIT1, h]
  cases bits.testBit 1 <;> simp

theorem connected_after_set_connected (bits : Nat) :
    bit_test (xEventGroupSetBits bits WIFI_CONNECTED_BIT) WIFI_CONNECTED_BIT = true := by
  rw [bit_test_connected_iff]
  simp [xEventGroupSetBits, WIFI_CONNECTED_BIT, BIT0, Nat.testBit_or]

theorem fail_after_set_connected (bits : Nat) :
    bit_test (xEventGroupSetBits bits WIFI_CONNECTED_BIT) WIFI_FAIL_BIT
      = bit_test bits WIFI_FAIL_BIT := by
  rw [bit_test_fail_iff, bit_test_fail_iff]
  have h1 : Nat.testBit 1 1 = false := by decide
  simp [xEventGroupSetBits, WIFI_CONNECTED_BIT, BIT0, Nat.testBit_or, h1]

theorem fail_after_set_fail (bits : Nat) :
    bit_test (xEventGroupSetBits bits WIFI_FAIL_BIT) WIFI_FAIL_BIT = true := by
  rw [bit_test_fail_iff]
  have h2 : Nat.testBit 2 1 = true := by decide
  simp [xEventGroupSetBits, WIFI_FAIL_BIT, BIT1, Nat.testBit_or, h2]

theorem connected_after_set_fail (bits : Nat) :
    bit_test (xEventGroupSetBits bits WIFI_FAIL_BIT) WIFI_CONNECTED_BIT
      = bit_test bits WIFI_CONNECTED_BIT := by
  rw [bit_test_connected_iff, bit_test_connected_iff]
  simp [xEventGroupSetBits, WIFI_FAIL_BIT, BIT1, Nat.testBit_or]

/-! ## Lemmas on the handler and on event delivery -/

theorem handler_sta_start (N : Int) (s : WifiState) :
    event_handler N s WIFI_EVENT WIFI_EVENT_STA_START = (s, 1) := by
  simp [event_handler]

theorem handler_disconnected_retry (N : Int) (s : WifiState) (h : s.s_retry_num < N) :
    event_handler N s WIFI_EVENT WIFI_EVENT_STA_DISCONNECTED
      = ({ s with s_retry_num := s.s_retry_num + 1, s_connected := false }, 1) := by
  simp [event_handler, WIFI_EVENT_STA_START, WIFI_EVENT_STA_DISCONNECTED, h]

theorem handler_disconnected_exhausted (N : Int) (s : WifiState) (h : ¬ s.s_retry_num < N) :
    event_handler N s WIFI_EVENT WIFI_EVENT_STA_DISCONNECTED
      = ({ s with event_bits := xEventGroupSetBits s.event_bits WIFI_FAIL_BIT,
                  s_connected := false }, 0) := by
  simp [event_handler, WIFI_EVENT_STA_START, WIFI_EVENT_STA_DISCONNECTED, h]

theorem handler_got_ip (N : Int) (s : WifiState) :
    event_handler N s IP_EVENT IP_EVENT_STA_GOT_IP
      = ({ s with s_retry_num := 0, s_connected := true,
                  event_bits := xEventGroupSetBits s.event_bits WIFI_CONNECTED_BIT }, 0) := by
  simp [event_handler]

theorem dispatch_count (N : Int) (events : List Event) (s : WifiState) (n : Nat) :
    dispatch N (s, n) events
      = ((dispatch N (s, 0) events).1, n + (dispatch N (s, 0) events).2) := by
  induction events generalizing s n with
  | nil => simp [dispatch]
  | cons e rest ih =>
    obtain ⟨b, i⟩ := e
    simp only [dispatch]
    rw [ih (event_handler N s b i).1 (n + (event_handler N s b i).2),
      ih (event_handler N s b i).1 (0 + (event_handler N s b i).2)]
    simp only [Prod.mk.injEq, true_and]
    omega

theorem run_nil (N : Int) (s : WifiState) : run N s [] = (s, 0) := rfl

theorem run_cons (N : Int) (s : WifiState) (e : Event) (rest : List Event) :
    run N s (e :: rest)
      = ((run N (event_handler N s e.1 e.2).1 rest).1,
         (event_handler N s e.1 e.2).2 + (run N (event_handler N s e.1 e.2).1 rest).2) := by
  obtain ⟨b, i⟩ := e
  simp only [run, dispatch]
  rw [dispatch_count, Nat.zero_add]

theorem run_append (N : Int) (s : WifiState) (xs ys : List Event) :
    run N s (xs ++ ys)
      = ((run N (run N s xs).1 ys).1, (run N s xs).2 + (run N (run N s xs).1 ys).2) := by
  induction xs generalizing s with
  | nil => simp [run_nil]
  | cons e rest ih =>
    rw [List.cons_append, run_cons, run_cons, ih]
    simp only [Prod.mk.injEq, true_and]
    omega

/-- Disconnects that stay within the retry budget only raise the counter, each
issuing one connect request; the flag word is untouched. -/
theorem run_disconnects_within_budget (N : Int) (k : Nat) (s : WifiState)
    (h : s.s_retry_num + k ≤ N) :
    (run N s (List.replicate k sta_disconnected)).1.event_bits = s.event_bits ∧
    (run N s (List.replicate k sta_disconnected)).1.s_retry_num = s.s_retry_num + k ∧
    (run N s (List.replicate k sta_disconnected)).1.s_sta_netif = s.s_sta_netif ∧
    (run N s (List.replicate k sta_disconnected)).2 = k := by
  induction k generalizing s with
  | zero => simp [run_nil]
  | succ k ih =>
    have hlt : s.s_retry_num < N := by push_cast at h; omega
    rw [List.replicate_succ, run_cons]
    simp only [sta_disconnected, handler_disconnected_retry N s hlt]
    have h2 := ih { s with s_retry_num := s.s_retry_num + 1, s_connected := false }
      (by simp only; push_cast at h; omega)
    simp only [sta_disconnected] at h2
    obtain ⟨hb, hr, hn, hc⟩ := h2
    refine ⟨hb, ?_, hn, ?_⟩
    · rw [hr]; push_cast; ring
    · rw [hc]; omega

/-! ## Retry budget and outcomes -/

/-- C1: with `max_retries = N`, after the station-started event and only
station-disconnected events, none of the first `N` disconnects sets the Failed
flag (and `k` of them have issued `k + 1` connect requests in total), the
`(N+1)`-th disconnect sets it, exactly `N + 1` connect requests have been issued
by then, and the flag word maps to `ESP_FAIL`. -/
theorem C1_failure_after_retry_budget (N : Nat) (netif : Option Nat) :
    (∀ k, k ≤ N →
      failed_flag
          (run N (initial_state netif) (sta_start :: List.replicate k sta_disconnected)).1
        = false ∧
      (run N (initial_state netif) (sta_start :: List.replicate k sta_disconnected)).2
        = k + 1) ∧
    failed_flag
        (run N (initial_state netif) (sta_start :: List.replicate (N + 1) sta_disconnected)).1
      = true ∧
    (run N (initial_state netif) (sta_start :: List.replicate (N + 1) sta_disconnected)).2
      = N + 1 ∧
    connect_result
        (run N (initial_state netif)
          (sta_start :: List.replicate (N + 1) sta_disconnected)).1.event_bits
      = ESP_FAIL := by
  have hstart : ∀ evs, run N (initial_state netif) (sta_start :: evs)
      = ((run N (initial_state netif) evs).1, 1 + (run N (initial_state netif) evs).2) := by
    intro evs
    rw [run_cons]
    simp only [sta_start, handler_sta_start]
  have hk : ∀ k, k ≤ N →
      (run N (initial_state netif) (List.replicate k sta_disconnected)).1.event_bits = 0 ∧
      (run N (initial_state netif) (List.replicate k sta_disconnected)).1.s_retry_num = k ∧
      (run N (initial_state netif) (List.replicate k sta_disconnected)).2 = k := by
    intro k hkN
    have h := run_disconnects_within_budget N k (initial_state netif)
      (by simp only [initial_state]; omega)
    simp only [initial_state, zero_add] at h ⊢
    exact ⟨h.1, h.2.1, h.2.2.2⟩
  have hlast :
      (run N (initial_state netif) (List.replicate (N + 1) sta_disconnected)).1.event_bits
        = xEventGroupSetBits 0 WIFI_FAIL_BIT ∧
      (run N (initial_state netif) (List.replicate (N + 1) sta_disconnected)).2 = N := by
    obtain ⟨hb, hr, hc⟩ := hk N le_rfl
    rw [List.replicate_succ', run_append, run_cons, run_nil]
    have hex : ¬ (run N (initial_state netif)
        (List.replicate N sta_disconnected)).1.s_retry_num < (N : Int) := by
      rw [hr]; exact lt_irrefl _
    have hh := handler_disconnected_exhausted _ _ hex
    simp only [sta_disconnected] at hh hb hc ⊢
    rw [hh]
    simp only [hb, hc]
    exact ⟨trivial, rfl⟩
  refine ⟨?_, ?_, ?_, ?_⟩
  · intro k hkN
    obtain ⟨hb, _, hc⟩ := hk k hkN
    rw [hstart]
    refine ⟨?_, ?_⟩
    · simp only [failed_flag, hb, bit_test_zero]
    · simp only [hc]; omega
  · rw [hstart]
    simp only [failed_flag, hlast.1, fail_after_set_fail]
  · rw [hstart]
    simp only [hlast.2]; omega
  · rw [hstart]
    simp only [hlast.1, connect_result, fail_after_set_fail, connected_after_set_fail,
      bit_test_zero]
    simp

/-- C1, witness: `max_retries = 2` and three disconnects. -/
theorem C1_failure_after_retry_budget_witness :
    failed_flag
        (run 2 (initial_state none)
          [sta_start, sta_disconnected, sta_disconnected, sta_disconnected]).1 = true ∧
    (run 2 (initial_state none)
      [sta_start, sta_disconnected, sta_disconnected, sta_disconnected]).2 = 3 ∧
    connect_result
        (run 2 (initial_state none)
          [sta_start, sta_disconnected, sta_disconnected, sta_disconnected]).1.event_bits
      = ESP_FAIL :=
  (C1_failure_after_retry_budget 2 none).2

theorem working_env_setup_succeeds (netif : Option Nat) (events : List Event) :
    setup_succeeds (working_env netif events) := by
  simp [setup_succeeds, working_env]

/-- When every set-up step succeeds, `wifi_helper_connect` performs all its
calls and returns the code mapped from the flag word after the delivered
events, which are handled from a fresh flag word and the new interface handle. -/
theorem wifi_helper_connect_of_setup (N : Int) (env : ConnectEnv) (s : WifiState)
    (h : setup_succeeds env) :
    wifi_helper_connect N env s
      = { ret := some (connect_result
            (run N { s with event_bits := 0, s_sta_netif := env.sta_netif }
              env.events).1.event_bits),
          calls := all_calls,
          state := (run N { s with event_bits := 0, s_sta_netif := env.sta_netif }
              env.events).1 } := by
  obtain ⟨h0, h1, h2, h3, h4, h5, h6, h7, h8⟩ := h
  obtain ⟨g, hg⟩ := Option.ne_none_iff_exists'.mp h0
  simp [wifi_helper_connect, hg, h1, h2, h3, h4, h5, h6, h7, h8, all_calls,
    xEventGroupWaitBits, pdFALSE]

/-- C2: from every state a got-IP event gives `retry_count = 0`,
`connected = true`, the Connected flag set and no connect request; so for
`max_retries = N` and `k ≤ N` the trace station-started, `k` disconnects, got-IP
ends with `retry_count = 0`, only the Connected flag set, and the result of
`wifi_helper_connect` is `ESP_OK`. -/
theorem C2_got_ip_gives_success (M : Int) (s : WifiState) (N k : Nat) (netif : Option Nat)
    (hk : k ≤ N) :
    ((event_handler M s IP_EVENT IP_EVENT_STA_GOT_IP).1.s_retry_num = 0 ∧
     (event_handler M s IP_EVENT IP_EVENT_STA_GOT_IP).1.s_connected = true ∧
     connected_flag (event_handler M s IP_EVENT IP_EVENT_STA_GOT_IP).1 = true ∧
     (event_handler M s IP_EVENT IP_EVENT_STA_GOT_IP).2 = 0) ∧
    ((run N (initial_state netif)
        (sta_start :: (List.replicate k sta_disconnected ++ [got_ip]))).1.s_retry_num = 0 ∧
     connected_flag (run N (initial_state netif)
        (sta_start :: (List.replicate k sta_disconnected ++ [got_ip]))).1 = true ∧
     failed_flag (run N (initial_state netif)
        (sta_start :: (List.replicate k sta_disconnected ++ [got_ip]))).1 = false ∧
     connect_result (run N (initial_state netif)
        (sta_start :: (List.replicate k sta_disconnected ++ [got_ip]))).1.event_bits = ESP_OK ∧
     (wifi_helper_connect N
        (working_env netif (sta_start :: (List.replicate k sta_disconnected ++ [got_ip])))
        (initial_state none)).ret = some ESP_OK) := by
  have hstep : ∀ (M : Int) (s : WifiState),
      (event_handler M s IP_EVENT IP_EVENT_STA_GOT_IP).1.s_retry_num = 0 ∧
      (event_handler M s IP_EVENT IP_EVENT_STA_GOT_IP).1.s_connected = true ∧
      connected_flag (event_handler M s IP_EVENT IP_EVENT_STA_GOT_IP).1 = true ∧
      (event_handler M s IP_EVENT IP_EVENT_STA_GOT_IP).2 = 0 := by
    intro M s
    rw [handler_got_ip]
    simp only [connected_flag, connected_after_set_connected, and_self]
  have hd := run_disconnects_within_budget N k (initial_state netif)
    (by simp only [initial_state]; omega)
  have hbits : (run N (initial_state netif)
      (sta_start :: (List.replicate k sta_disconnected ++ [got_ip]))).1.event_bits
        = xEventGroupSetBits 0 WIFI_CONNECTED_BIT := by
    rw [run_cons]
    simp only [sta_start, handler_sta_start]
    rw [run_append, run_cons, run_nil]
    simp only [got_ip, handler_got_ip]
    rw [hd.1]
    rfl
  have hretry : (run N (initial_state netif)
      (sta_start :: (List.replicate k sta_disconnected ++ [got_ip]))).1.s_retry_num = 0 := by
    rw [run_cons]
    simp only [sta_start, handler_sta_start]
    rw [run_append, run_cons, run_nil]
    simp only [got_ip, handler_got_ip]
  have hres : connect_result (xEventGroupSetBits 0 WIFI_CONNECTED_BIT) = ESP_OK := by
    simp only [connect_result, connected_after_set_connected, if_true]
  refine ⟨hstep M s, hretry, ?_, ?_, ?_, ?_⟩
  · simp only [connected_flag, hbits, connected_after_set_connected]
  · simp only [failed_flag, hbits, fail_after_set_connected, bit_test_zero]
  · rw [hbits, hres]
  · rw [wifi_helper_connect_of_setup _ _ _ (working_env_setup_succeeds _ _)]
    have : ({ initial_state none with event_bits := 0, s_sta_netif := netif } : WifiState)
        = initial_state netif := rfl
    simp only [working_env, this, hbits, hres]

/-- C2, witness: `max_retries = 5`, three disconnects, then got-IP. -/
theorem C2_got_ip_gives_success_witness :
    (run 5 (initial_state none)
        [sta_start, sta_disconnected, sta_disconnected, sta_disconnected, got_ip]).1.s_retry_num
      = 0 ∧
    connect_result (run 5 (initial_state none)
        [sta_start, sta_disconnected, sta_disconnected, sta_disconnected, got_ip]).1.event_bits
      = ESP_OK :=
  ⟨(C2_got_ip_gives_success 5 (initial_state none) 5 3 none (by decide)).2.1,
   (C2_got_ip_gives_success 5 (initial_state none) 5 3 none (by decide)).2.2.2.2.1⟩

/-- C3: the code mapped from the flag word the wait returns is one of the three
distinct codes `ESP_OK`, `ESP_FAIL`, `ESP_ERR_TIMEOUT`; it is `ESP_OK` exactly
when the Connected bit (bit 0) is set, `ESP_ERR_TIMEOUT` exactly when neither
bit 0 nor the Failed bit (bit 1) is set, `ESP_FAIL` exactly when bit 1 is set
and bit 0 is not; it is what `wifi_helper_connect` returns once set-up has
succeeded, and with no event delivered that is `ESP_ERR_TIMEOUT`. -/
theorem C3_outcome_of_flag_word (bits : Nat) (N : Int) (env : ConnectEnv) (s : WifiState)
    (h : setup_succeeds env) :
    (connect_result bits = ESP_OK ∨ connect_result bits = ESP_FAIL ∨
      connect_result bits = ESP_ERR_TIMEOUT) ∧
    (ESP_OK ≠ ESP_FAIL ∧ ESP_OK ≠ ESP_ERR_TIMEOUT ∧ ESP_FAIL ≠ ESP_ERR_TIMEOUT) ∧
    (connect_result bits = ESP_OK ↔ bits.testBit 0 = true) ∧
    (connect_result bits = ESP_ERR_TIMEOUT ↔ bits.testBit 0 = false ∧ bits.testBit 1 = false) ∧
    (connect_result bits = ESP_FAIL ↔ bits.testBit 1 = true ∧ bits.testBit 0 = false) ∧
    (wifi_helper_connect N env s).ret
      = some (connect_result (wifi_helper_connect N env s).state.event_bits) ∧
    (env.events = [] → (wifi_helper_connect N env s).ret = some ESP_ERR_TIMEOUT) := by
  have hd : ESP_OK ≠ ESP_FAIL ∧ ESP_OK ≠ ESP_ERR_TIMEOUT ∧ ESP_FAIL ≠ ESP_ERR_TIMEOUT := by
    simp only [ESP_OK, ESP_FAIL, ESP_ERR_TIMEOUT]; decide
  obtain ⟨h1, h2, h3⟩ := hd
  have hc := bit_test_connected_iff bits
  have hf := bit_test_fail_iff bits
  refine ⟨?_, ⟨h1, h2, h3⟩, ?_, ?_, ?_, ?_, ?_⟩
  · unfold connect_result; split_ifs <;> simp
  · by_cases a : bits.testBit 0 = true <;> by_cases b : bits.testBit 1 = true <;>
      simp [connect_result, hc, hf, a, b, h1.symm, h2.symm]
  · by_cases a : bits.testBit 0 = true <;> by_cases b : bits.testBit 1 = true <;>
      simp [connect_result, hc, hf, a, b, h2, h3]
  · by_cases a : bits.testBit 0 = true <;> by_cases b : bits.testBit 1 = true <;>
      simp [connect_result, hc, hf, a, b, h1, h3.symm]
  · rw [wifi_helper_connect_of_setup N env s h]
  · intro he
    rw [wifi_helper_connect_of_setup N env s h, he, run_nil]
    simp only [connect_result, bit_test_zero]
    simp

/-- C3, witness: a working platform that delivers no event gives
`ESP_ERR_TIMEOUT`. -/
theorem C3_outcome_of_flag_word_witness :
    (wifi_helper_connect 5 (working_env (some 7) []) (initial_state none)).ret
      = some ESP_ERR_TIMEOUT :=
  (C3_outcome_of_flag_word 0 5 (working_env (some 7) []) (initial_state none)
    (working_env_setup_succeeds (some 7) [])).2.2.2.2.2.2 rfl

/-! ## Terminal flags -/

/-- One event sets at most one terminal flag: from a state with both flags clear
the handler never leaves both set. -/
theorem handler_sets_at_most_one_flag (N : Int) (s : WifiState) (b : esp_event_base_t)
    (i : Int) (hc : connected_flag s = false) (hf : failed_flag s = false) :
    ¬ (connected_flag (event_handler N s b i).1 = true ∧
       failed_flag (event_handler N s b i).1 = true) := by
  unfold event_handler
  simp only [connected_flag, failed_flag] at hc hf ⊢
  split_ifs <;>
    simp [hc, hf, fail_after_set_connected, connected_after_set_fail]

/-- C4, as stated, fails: with `max_retries = 1`, two disconnects set the Failed
flag and a later got-IP event sets the Connected flag as well. -/
theorem C4_both_flags_counterexample :
    connected_flag (run 1 (initial_state none)
      [sta_start, sta_disconnected, sta_disconnected, got_ip]).1 = true ∧
    failed_flag (run 1 (initial_state none)
      [sta_start, sta_disconnected, sta_disconnected, got_ip]).1 = true := by
  decide

/-- C4, amended: for every `max_retries` and every event sequence applied to the
initial state, if neither terminal flag is set before the last event, the state
after it does not have both flags set. -/
theorem C4_first_flag_is_single (N : Int) (netif : Option Nat) (events : List Event)
    (e : Event)
    (hc : connected_flag (run N (initial_state netif) events).1 = false)
    (hf : failed_flag (run N (initial_state netif) events).1 = false) :
    ¬ (connected_flag (run N (initial_state netif) (events ++ [e])).1 = true ∧
       failed_flag (run N (initial_state netif) (events ++ [e])).1 = true) := by
  rw [run_append, run_cons, run_nil]
  exact handler_sets_at_most_one_flag N _ e.1 e.2 hc hf

/-- C4, amended, witness: `max_retries = 1`, one disconnect, then got-IP. -/
theorem C4_first_flag_is_single_witness :
    ¬ (connected_flag (run 1 (initial_state none)
          ([sta_start, sta_disconnected] ++ [got_ip])).1 = true ∧
       failed_flag (run 1 (initial_state none)
          ([sta_start, sta_disconnected] ++ [got_ip])).1 = true) :=
  C4_first_flag_is_single 1 none [sta_start, sta_disconnected] got_ip (by decide) (by decide)

/-! ## Formatting of the address -/

theorem sprintf_IPSTR (a b c d : Int) :
    sprintf IPSTR [a, b, c, d]
      = format_d a ++ '.' :: (format_d b ++ '.' :: (format_d c ++ '.' :: format_d d)) := by
  simp [IPSTR, sprintf]

theorem format_d_natCast (n : Nat) : format_d (n : Int) = numeral n := by
  simp [format_d, numeral]

/-- The text written for an address: the numerals of its four bytes, in memory
order, joined by dots. -/
theorem sprintf_IPSTR_IP2STR (addr : Nat) :
    sprintf IPSTR (IP2STR addr)
      = numeral (esp_ip4_addr_get_byte addr 0) ++ '.' ::
          (numeral (esp_ip4_addr_get_byte addr 1) ++ '.' ::
            (numeral (esp_ip4_addr_get_byte addr 2) ++ '.' ::
              numeral (esp_ip4_addr_get_byte addr 3))) := by
  simp only [IP2STR, sprintf_IPSTR, format_d_natCast]

theorem numeral_length_pos (n : Nat) : 1 ≤ (numeral n).length := by
  unfold numeral Nat.toDigits
  rw [Nat.toDigitsCore]
  split_ifs
  · simp
  · rw [Nat.toDigitsCore_lens_eq]; omega

theorem numeral_length_le (n : Nat) (h : n < 256) : (numeral n).length ≤ 3 := by
  unfold numeral Nat.toDigits
  exact Nat.toDigitsCore_length 10 (by decide) (n + 1) n 3 (by omega) (by decide)

theorem esp_ip4_addr_get_byte_lt (addr idx : Nat) : esp_ip4_addr_get_byte addr idx < 256 :=
  Nat.mod_lt _ (by decide)

theorem bytes_of_ip4_addr (a b c d : Nat) (ha : a ≤ 255) (hb : b ≤ 255) (hc : c ≤ 255)
    (hd : d ≤ 255) :
    esp_ip4_addr_get_byte (ip4_addr a b c d) 0 = a ∧
    esp_ip4_addr_get_byte (ip4_addr a b c d) 1 = b ∧
    esp_ip4_addr_get_byte (ip4_addr a b c d) 2 = c ∧
    esp_ip4_addr_get_byte (ip4_addr a b c d) 3 = d := by
  simp only [esp_ip4_addr_get_byte, ip4_addr]
  norm_num
  refine ⟨?_, ?_, ?_, ?_⟩ <;> omega

theorem ip_text_length (addr : Nat) :
    7 ≤ (sprintf IPSTR (IP2STR addr)).length ∧ (sprintf IPSTR (IP2STR addr)).length ≤ 15 := by
  rw [sprintf_IPSTR_IP2STR]
  have l0 := numeral_length_pos (esp_ip4_addr_get_byte addr 0)
  have l1 := numeral_length_pos (esp_ip4_addr_get_byte addr 1)
  have l2 := numeral_length_pos (esp_ip4_addr_get_byte addr 2)
  have l3 := numeral_length_pos (esp_ip4_addr_get_byte addr 3)
  have u0 := numeral_length_le _ (esp_ip4_addr_get_byte_lt addr 0)
  have u1 := numeral_length_le _ (esp_ip4_addr_get_byte_lt addr 1)
  have u2 := numeral_length_le _ (esp_ip4_addr_get_byte_lt addr 2)
  have u3 := numeral_length_le _ (esp_ip4_addr_get_byte_lt addr 3)
  simp only [List.length_append, List.length_cons]
  omega

/-! ## Status queries after a run of events -/

theorem handler_preserves_netif (N : Int) (s : WifiState) (b : esp_event_base_t) (i : Int) :
    (event_handler N s b i).1.s_sta_netif = s.s_sta_netif := by
  unfold event_handler
  split_ifs <;> rfl

theorem run_preserves_netif (N : Int) (events : List Event) (s : WifiState) :
    (run N s events).1.s_sta_netif = s.s_sta_netif := by
  induction events generalizing s with
  | nil => rfl
  | cons e rest ih => rw [run_cons, ih, handler_preserves_netif]

theorem handler_keeps_connected_flag (N : Int) (s : WifiState) (b : esp_event_base_t) (i : Int)
    (h : connected_flag s = true) : connected_flag (event_handler N s b i).1 = true := by
  unfold event_handler
  simp only [connected_flag] at h ⊢
  split_ifs <;> simp [h, connected_after_set_fail, connected_after_set_connected]

theorem run_keeps_connected_flag (N : Int) (events : List Event) (s : WifiState)
    (h : connected_flag s = true) : connected_flag (run N s events).1 = true := by
  induction events generalizing s with
  | nil => exact h
  | cons e rest ih =>
    rw [run_cons]
    exact ih _ (handler_keeps_connected_flag N s e.1 e.2 h)

theorem run_stays_connected (N : Int) (events : List Event) (s : WifiState)
    (h : s.s_connected = true) (hno : sta_disconnected ∉ events) :
    (run N s events).1.s_connected = true := by
  induction events generalizing s with
  | nil => exact h
  | cons e rest ih =>
    rw [run_cons]
    have hne : e ≠ sta_disconnected := fun he => hno (he ▸ List.mem_cons_self _ _)
    have hrest : sta_disconnected ∉ rest := fun hm => hno (List.mem_cons_of_mem _ hm)
    apply ih _ _ hrest
    obtain ⟨b, i⟩ := e
    unfold event_handler
    split_ifs with h1 h2 h3
    · exact h
    · exact absurd (Prod.ext h2.1 h2.2) hne
    · exact absurd (Prod.ext h2.1 h2.2) hne
    · rfl
    · exact h

theorem run_stays_disconnected (N : Int) (events : List Event) (s : WifiState)
    (h : s.s_connected = false) (hc : connected_flag s = false) (hno : got_ip ∉ events) :
    (run N s events).1.s_connected = false ∧ connected_flag (run N s events).1 = false := by
  induction events generalizing s with
  | nil => exact ⟨h, hc⟩
  | cons e rest ih =>
    rw [run_cons]
    have hne : e ≠ got_ip := fun he => hno (he ▸ List.mem_cons_self _ _)
    have hrest : got_ip ∉ rest := fun hm => hno (List.mem_cons_of_mem _ hm)
    obtain ⟨b, i⟩ := e
    have hstep : (event_handler N s b i).1.s_connected = false ∧
        connected_flag (event_handler N s b i).1 = false := by
      unfold event_handler
      simp only [connected_flag] at hc ⊢
      split_ifs with h1 h2 h3 h4
      · exact ⟨h, hc⟩
      · exact ⟨rfl, hc⟩
      · exact ⟨rfl, by simp only [connected_after_set_fail, hc]⟩
      · exact absurd (Prod.ext h4.1 h4.2) hne
      · exact ⟨h, hc⟩
    exact ih _ hstep.1 hstep.2 hrest

/-- A run from the initial state that maps to `ESP_OK` contains a got-IP event. -/
theorem success_requires_got_ip (N : Int) (netif : Option Nat) (events : List Event)
    (h : connect_result (run N (initial_state netif) events).1.event_bits = ESP_OK) :
    got_ip ∈ events := by
  by_contra hno
  have hc := (run_stays_disconnected N events (initial_state netif) rfl
    (by simp [connected_flag, initial_state, bit_test_zero]) hno).2
  simp only [connected_flag] at hc
  by_cases hf : bit_test (run N (initial_state netif) events).1.event_bits WIFI_FAIL_BIT = true
  · simp [connect_result, hc, hf, ESP_OK, ESP_FAIL] at h
  · simp [connect_result, hc, hf, ESP_OK, ESP_ERR_TIMEOUT] at h

/-- C5, as stated, fails: after station-started, got-IP, station-disconnected the
flag word maps to `ESP_OK`, yet `wifi_helper_is_connected` returns false and
`wifi_helper_get_ip_string` returns `ESP_FAIL` without writing the buffer. -/
theorem C5_success_then_disconnect_counterexample :
    connect_result (run 5 (initial_state (some 7))
      [sta_start, got_ip, sta_disconnected]).1.event_bits = ESP_OK ∧
    wifi_helper_is_connected (run 5 (initial_state (some 7))
      [sta_start, got_ip, sta_disconnected]).1 = false ∧
    (wifi_helper_get_ip_string (run 5 (initial_state (some 7))
      [sta_start, got_ip, sta_disconnected]).1 (some [])
      (fun _ => (ESP_OK, ip4_addr 192 168 1 20))).ret = ESP_FAIL ∧
    (wifi_helper_get_ip_string (run 5 (initial_state (some 7))
      [sta_start, got_ip, sta_disconnected]).1 (some [])
      (fun _ => (ESP_OK, ip4_addr 192 168 1 20))).written = none := by
  decide

/-- C5, amended: for every event sequence applied from the initial state in
which no station-disconnected event follows a got-IP event (the sequence is
`pre`, got-IP, `post` with no disconnect in `post`), the flag word maps to
`ESP_OK`, `wifi_helper_is_connected` returns true, and
`wifi_helper_get_ip_string`, given a non-null buffer and with the interface
handle `h` present, returns the status of the live query and, when that is
`ESP_OK`, writes the numerals of the four address bytes joined by dots. -/
theorem C5_status_after_success (N : Int) (h : Nat) (pre post : List Event)
    (buf : List Char) (q : Nat → Int × Nat) (hpost : sta_disconnected ∉ post) :
    connect_result
        (run N (initial_state (some h)) (pre ++ got_ip :: post)).1.event_bits = ESP_OK ∧
    wifi_helper_is_connected (run N (initial_state (some h)) (pre ++ got_ip :: post)).1
      = true ∧
    (wifi_helper_get_ip_string (run N (initial_state (some h)) (pre ++ got_ip :: post)).1
      (some buf) q).ret = (q h).1 ∧
    ((q h).1 = ESP_OK →
      (wifi_helper_get_ip_string (run N (initial_state (some h)) (pre ++ got_ip :: post)).1
        (some buf) q).written
        = some (numeral (esp_ip4_addr_get_byte (q h).2 0) ++ '.' ::
            (numeral (esp_ip4_addr_get_byte (q h).2 1) ++ '.' ::
              (numeral (esp_ip4_addr_get_byte (q h).2 2) ++ '.' ::
                numeral (esp_ip4_addr_get_byte (q h).2 3))))) := by
  have hnet : (run N (initial_state (some h)) (pre ++ got_ip :: post)).1.s_sta_netif
      = some h := run_preserves_netif N _ _
  have hgot := handler_got_ip N (run N (initial_state (some h)) pre).1
  have hconn : (run N (initial_state (some h)) (pre ++ got_ip :: post)).1.s_connected
      = true := by
    rw [run_append, run_cons]
    simp only [got_ip] at hgot ⊢
    rw [hgot]
    exact run_stays_connected N post _ rfl hpost
  have hflag : connected_flag (run N (initial_state (some h)) (pre ++ got_ip :: post)).1
      = true := by
    rw [run_append, run_cons]
    simp only [got_ip] at hgot ⊢
    rw [hgot]
    exact run_keeps_connected_flag N post _
      (by simp only [connected_flag, connected_after_set_connected])
  refine ⟨?_, hconn, ?_, ?_⟩
  · simp only [connected_flag] at hflag
    simp only [connect_result, hflag, if_true]
  · simp only [wifi_helper_get_ip_string, hconn, hnet]
    split_ifs <;> rfl
  · intro hq
    simp only [wifi_helper_get_ip_string, hconn, hnet, hq, if_true, sprintf_IPSTR_IP2STR]

/-- C5, amended, witness: station-started, a disconnect, got-IP, and a query
answering `ESP_OK` with the address `192.168.1.20`. -/
theorem C5_status_after_success_witness :
    wifi_helper_is_connected
        (run 5 (initial_state (some 7)) ([sta_start, sta_disconnected] ++ got_ip :: [])).1
      = true ∧
    (wifi_helper_get_ip_string
        (run 5 (initial_state (some 7)) ([sta_start, sta_disconnected] ++ got_ip :: [])).1
        (some []) (fun _ => (ESP_OK, ip4_addr 192 168 1 20))).ret = ESP_OK :=
  ⟨(C5_status_after_success 5 7 [sta_start, sta_disconnected] [] []
      (fun _ => (ESP_OK, ip4_addr 192 168 1 20)) (by decide)).2.1,
   (C5_status_after_success 5 7 [sta_start, sta_disconnected] [] []
      (fun _ => (ESP_OK, ip4_addr 192 168 1 20)) (by decide)).2.2.1⟩

/-- C6: for every event sequence applied from the initial state that contains no
got-IP event, `connected` is false at the end, the flag word does not map to
`ESP_OK`, `wifi_helper_is_connected` returns false and
`wifi_helper_get_ip_string` returns `ESP_FAIL`, without querying the interface
or writing the buffer. -/
theorem C6_never_connected_without_got_ip (N : Int) (netif : Option Nat)
    (events : List Event) (ip_str : Option (List Char)) (q : Nat → Int × Nat)
    (hno : got_ip ∉ events) :
    (run N (initial_state netif) events).1.s_connected = false ∧
    connect_result (run N (initial_state netif) events).1.event_bits ≠ ESP_OK ∧
    wifi_helper_is_connected (run N (initial_state netif) events).1 = false ∧
    wifi_helper_get_ip_string (run N (initial_state netif) events).1 ip_str q
      = { ret := ESP_FAIL, queried := false, written := none } := by
  have hc := (run_stays_disconnected N events (initial_state netif) rfl
    (by simp [connected_flag, initial_state, bit_test_zero]) hno).1
  refine ⟨hc, ?_, hc, ?_⟩
  · intro hok
    exact hno (success_requires_got_ip N netif events hok)
  · simp only [wifi_helper_get_ip_string, hc]

/-- C6, witness: `max_retries = 1`, station-started and two disconnects. -/
theorem C6_never_connected_without_got_ip_witness :
    wifi_helper_is_connected
        (run 1 (initial_state (some 7)) [sta_start, sta_disconnected, sta_disconnected]).1
      = false ∧
    wifi_helper_get_ip_string
        (run 1 (initial_state (some 7)) [sta_start, sta_disconnected, sta_disconnected]).1
        (some []) (fun _ => (ESP_OK, ip4_addr 192 168 1 20))
      = { ret := ESP_FAIL, queried := false, written := none } :=
  ⟨(C6_never_connected_without_got_ip 1 (some 7)
      [sta_start, sta_disconnected, sta_disconnected] (some [])
      (fun _ => (ESP_OK, ip4_addr 192 168 1 20)) (by decide)).2.2.1,
   (C6_never_connected_without_got_ip 1 (some 7)
      [sta_start, sta_disconnected, sta_disconnected] (some [])
      (fun _ => (ESP_OK, ip4_addr 192 168 1 20)) (by decide)).2.2.2⟩

/-! ## wifi_helper_get_ip_string -/

/-- C7: `wifi_helper_get_ip_string` returns `ESP_FAIL`, does not query the
interface and leaves the buffer as it was whenever `connected` is false, the
interface handle is NULL or the buffer pointer is NULL; in every other case it
queries the interface, returns the status of that query, and writes the buffer
exactly when the status is `ESP_OK` (the text being the formatted address). -/
theorem C7_get_ip_string_contract (s : WifiState) (ip_str : Option (List Char))
    (q : Nat → Int × Nat) :
    ((s.s_connected = false ∨ s.s_sta_netif = none ∨ ip_str = none) →
      wifi_helper_get_ip_string s ip_str q
        = { ret := ESP_FAIL, queried := false, written := none } ∧
      buffer_after ip_str (wifi_helper_get_ip_string s ip_str q) = ip_str) ∧
    (∀ (h : Nat) (buf : List Char),
      s.s_connected = true → s.s_sta_netif = some h → ip_str = some buf →
      (wifi_helper_get_ip_string s ip_str q).ret = (q h).1 ∧
      (wifi_helper_get_ip_string s ip_str q).queried = true ∧
      ((wifi_helper_get_ip_string s ip_str q).written ≠ none ↔ (q h).1 = ESP_OK) ∧
      ((q h).1 = ESP_OK →
        buffer_after ip_str (wifi_helper_get_ip_string s ip_str q)
          = some (sprintf IPSTR (IP2STR (q h).2))) ∧
      ((q h).1 ≠ ESP_OK →
        buffer_after ip_str (wifi_helper_get_ip_string s ip_str q) = ip_str)) := by
  refine ⟨?_, ?_⟩
  · intro hbad
    have hrun : wifi_helper_get_ip_string s ip_str q
        = { ret := ESP_FAIL, queried := false, written := none } := by
      unfold wifi_helper_get_ip_string
      rcases hbad with hc | hn | hb
      · rw [hc]
      · rw [hn]; cases s.s_connected <;> rfl
      · rw [hb]; cases s.s_connected <;> cases s.s_sta_netif <;> rfl
    refine ⟨hrun, ?_⟩
    rw [hrun]
    cases ip_str <;> rfl
  · intro h buf hc hn hb
    by_cases hq : (q h).1 = ESP_OK
    · have hrun : wifi_helper_get_ip_string s ip_str q
          = { ret := (q h).1, queried := true,
              written := some (sprintf IPSTR (IP2STR (q h).2)) } := by
        simp only [wifi_helper_get_ip_string, hc, hn, hb, hq, if_true]
      rw [hrun, hb]
      simp [hq, buffer_after]
    · have hrun : wifi_helper_get_ip_string s ip_str q
          = { ret := (q h).1, queried := true, written := none } := by
        simp only [wifi_helper_get_ip_string, hc, hn, hb, hq, if_false]
      rw [hrun, hb]
      simp [hq, buffer_after]

/-- C7, witness: a connected state with interface handle `7`, a buffer, and a
query reporting `ESP_ERR_TIMEOUT`: the status is passed on and nothing is
written. -/
theorem C7_get_ip_string_contract_witness :
    (wifi_helper_get_ip_string
        { event_bits := 1, s_sta_netif := some 7, s_connected := true, s_retry_num := 0 }
        (some ['x']) (fun _ => (ESP_ERR_TIMEOUT, 0))).ret = ESP_ERR_TIMEOUT ∧
    (wifi_helper_get_ip_string
        { event_bits := 1, s_sta_netif := some 7, s_connected := true, s_retry_num := 0 }
        (some ['x']) (fun _ => (ESP_ERR_TIMEOUT, 0))).queried = true :=
  ⟨((C7_get_ip_string_contract
      { event_bits := 1, s_sta_netif := some 7, s_connected := true, s_retry_num := 0 }
      (some ['x']) (fun _ => (ESP_ERR_TIMEOUT, 0))).2 7 ['x'] rfl rfl rfl).1,
   ((C7_get_ip_string_contract
      { event_bits := 1, s_sta_netif := some 7, s_connected := true, s_retry_num := 0 }
      (some ['x']) (fun _ => (ESP_ERR_TIMEOUT, 0))).2 7 ['x'] rfl rfl rfl).2.1⟩

/-- C8: for every four octets `a`, `b`, `c`, `d` in `0..255`, the text written
for the address with these bytes is the decimal numerals of `a`, `b`, `c`, `d`
joined by dots, has between 7 and 15 characters, and so takes at most 16 bytes
with the terminating NUL; and whatever `wifi_helper_get_ip_string` writes has
between 7 and 15 characters. -/
theorem C8_ip_text_fits_buffer (a b c d : Nat) (ha : a ≤ 255) (hb : b ≤ 255) (hc : c ≤ 255)
    (hd : d ≤ 255) :
    sprintf IPSTR (IP2STR (ip4_addr a b c d))
      = numeral a ++ '.' :: (numeral b ++ '.' :: (numeral c ++ '.' :: numeral d)) ∧
    7 ≤ (sprintf IPSTR (IP2STR (ip4_addr a b c d))).length ∧
    (sprintf IPSTR (IP2STR (ip4_addr a b c d))).length ≤ 15 ∧
    (sprintf IPSTR (IP2STR (ip4_addr a b c d))).length + 1 ≤ 16 ∧
    (∀ (s : WifiState) (ip_str : Option (List Char)) (q : Nat → Int × Nat)
        (text : List Char),
      (wifi_helper_get_ip_string s ip_str q).written = some text →
      7 ≤ text.length ∧ text.length + 1 ≤ 16) := by
  obtain ⟨h0, h1, h2, h3⟩ := bytes_of_ip4_addr a b c d ha hb hc hd
  have hlen := ip_text_length (ip4_addr a b c d)
  refine ⟨?_, hlen.1, hlen.2, by omega, ?_⟩
  · rw [sprintf_IPSTR_IP2STR, h0, h1, h2, h3]
  · intro s ip_str q text hw
    unfold wifi_helper_get_ip_string at hw
    split at hw
    · rename_i netif _ _ _
      have hl := ip_text_length (q netif).2
      by_cases hq : (q netif).1 = ESP_OK
      · simp only [hq, if_true, Option.some.injEq] at hw
        rw [← hw]
        omega
      · simp [hq] at hw
    · simp at hw

/-- C8, witness: the address `192.168.1.20`. -/
theorem C8_ip_text_fits_buffer_witness :
    sprintf IPSTR (IP2STR (ip4_addr 192 168 1 20))
      = numeral 192 ++ '.' :: (numeral 168 ++ '.' :: (numeral 1 ++ '.' :: numeral 20)) ∧
    (sprintf IPSTR (IP2STR (ip4_addr 192 168 1 20))).length + 1 ≤ 16 :=
  ⟨(C8_ip_text_fits_buffer 192 168 1 20 (by decide) (by decide) (by decide) (by decide)).1,
   (C8_ip_text_fits_buffer 192 168 1 20 (by decide) (by decide) (by decide)
      (by decide)).2.2.2.1⟩

/-! ## Allocation failure and the disconnect step -/

/-- C9: when `xEventGroupCreate` returns NULL, `wifi_helper_connect` returns
`ESP_FAIL` having made no other call (no network-stack or event-loop set-up, no
handler registration, no radio configuration or start, no wait), and the
statics are as before. -/
theorem C9_event_group_allocation_failure (N : Int) (env : ConnectEnv) (s : WifiState)
    (h : env.event_group = none) :
    (wifi_helper_connect N env s).ret = some ESP_FAIL ∧
    (wifi_helper_connect N env s).calls = [Call.xEventGroupCreate] ∧
    (∀ c ∈ (wifi_helper_connect N env s).calls, c = Call.xEventGroupCreate) ∧
    (wifi_helper_connect N env s).state = s := by
  have hrun : wifi_helper_connect N env s
      = { ret := some ESP_FAIL, calls := [Call.xEventGroupCreate], state := s } := by
    unfold wifi_helper_connect
    rw [h]
  rw [hrun]
  simp

/-- C9, witness: the platform refuses the event group; everything else would
have succeeded and a got-IP event was pending. -/
theorem C9_event_group_allocation_failure_witness :
    (wifi_helper_connect 5 { working_env (some 7) [sta_start, got_ip] with event_group := none }
        (initial_state none)).ret = some ESP_FAIL ∧
    (wifi_helper_connect 5 { working_env (some 7) [sta_start, got_ip] with event_group := none }
        (initial_state none)).calls = [Call.xEventGroupCreate] :=
  ⟨(C9_event_group_allocation_failure 5
      { working_env (some 7) [sta_start, got_ip] with event_group := none }
      (initial_state none) rfl).1,
   (C9_event_group_allocation_failure 5
      { working_env (some 7) [sta_start, got_ip] with event_group := none }
      (initial_state none) rfl).2.1⟩

/-- C10: from every state a station-disconnected event, when
`retry_count < max_retries`, issues exactly one connect request, raises
`retry_count` by one and leaves the flag word as it was (so neither terminal
flag is newly set); otherwise it issues no connect request, leaves
`retry_count` as it was and sets the Failed flag.  In both cases `connected` is
false afterwards and the Connected flag and the interface handle are as
before. -/
theorem C10_disconnect_step (N : Int) (s : WifiState) :
    (s.s_retry_num < N →
      (event_handler N s WIFI_EVENT WIFI_EVENT_STA_DISCONNECTED).2 = 1 ∧
      (event_handler N s WIFI_EVENT WIFI_EVENT_STA_DISCONNECTED).1.s_retry_num
        = s.s_retry_num + 1 ∧
      (event_handler N s WIFI_EVENT WIFI_EVENT_STA_DISCONNECTED).1.event_bits
        = s.event_bits ∧
      failed_flag (event_handler N s WIFI_EVENT WIFI_EVENT_STA_DISCONNECTED).1
        = failed_flag s) ∧
    (¬ s.s_retry_num < N →
      (event_handler N s WIFI_EVENT WIFI_EVENT_STA_DISCONNECTED).2 = 0 ∧
      (event_handler N s WIFI_EVENT WIFI_EVENT_STA_DISCONNECTED).1.s_retry_num
        = s.s_retry_num ∧
      failed_flag (event_handler N s WIFI_EVENT WIFI_EVENT_STA_DISCONNECTED).1 = true) ∧
    (event_handler N s WIFI_EVENT WIFI_EVENT_STA_DISCONNECTED).1.s_connected = false ∧
    connected_flag (event_handler N s WIFI_EVENT WIFI_EVENT_STA_DISCONNECTED).1
      = connected_flag s ∧
    (event_handler N s WIFI_EVENT WIFI_EVENT_STA_DISCONNECTED).1.s_sta_netif
      = s.s_sta_netif := by
  by_cases h : s.s_retry_num < N
  · rw [handler_disconnected_retry N s h]
    simp [h, failed_flag, connected_flag]
  · rw [handler_disconnected_exhausted N s h]
    simp [h, failed_flag, connected_flag, fail_after_set_fail, connected_after_set_fail]

/-- C10, witness: with `max_retries = 5`, a disconnect in a connected state with
`retry_count = 4` retries once; with `retry_count = 5` it sets the Failed
flag. -/
theorem C10_disconnect_step_witness :
    (event_handler 5
        { event_bits := 1, s_sta_netif := some 7, s_connected := true, s_retry_num := 4 }
        WIFI_EVENT WIFI_EVENT_STA_DISCONNECTED).2 = 1 ∧
    failed_flag (event_handler 5
        { event_bits := 1, s_sta_netif := some 7, s_connected := true, s_retry_num := 5 }
        WIFI_EVENT WIFI_EVENT_STA_DISCONNECTED).1 = true :=
  ⟨((C10_disconnect_step 5
      { event_bits := 1, s_sta_netif := some 7, s_connected := true, s_retry_num := 4 }).1
      (by decide)).1,
   ((C10_disconnect_step 5
      { event_bits := 1, s_sta_netif := some 7, s_connected := true, s_retry_num := 5 }).2.1
      (by decide)).2.2⟩

/-! ## Latching of the flags, frame of the handler, bound of the counter -/

theorem handler_keeps_failed_flag (N : Int) (s : WifiState) (b : esp_event_base_t) (i : Int)
    (h : failed_flag s = true) : failed_flag (event_handler N s b i).1 = true := by
  unfold event_handler
  simp only [failed_flag] at h ⊢
  split_ifs <;> simp [h, fail_after_set_fail, fail_after_set_connected]

theorem run_keeps_failed_flag (N : Int) (events : List Event) (s : WifiState)
    (h : failed_flag s = true) : failed_flag (run N s events).1 = true := by
  induction events generalizing s with
  | nil => exact h
  | cons e rest ih =>
    rw [run_cons]
    exact ih _ (handler_keeps_failed_flag N s e.1 e.2 h)

/-- A wait called with `xClearOnExit = pdFALSE` leaves the flag word as it is. -/
theorem wait_without_clear (bits mask : Nat) (xWaitForAllBits : Bool) :
    xEventGroupWaitBits bits mask pdFALSE xWaitForAllBits = (bits, bits) := by
  simp [xEventGroupWaitBits, pdFALSE]

/-- C11: a terminal flag that is set before `event_handler` runs is set
afterwards, for every state and event, hence after every further sequence of
events; the wait of `wifi_helper_connect`, called with `xClearOnExit = pdFALSE`,
leaves the flag word as it is, so after `wifi_helper_connect` the flags are
those left by the delivered events. -/
theorem C11_terminal_flags_latch (N : Int) (s : WifiState) (b : esp_event_base_t) (i : Int)
    (events : List Event) (env : ConnectEnv) (s0 : WifiState) (henv : setup_succeeds env) :
    (connected_flag s = true → connected_flag (event_handler N s b i).1 = true) ∧
    (failed_flag s = true → failed_flag (event_handler N s b i).1 = true) ∧
    (connected_flag s = true → connected_flag (run N s events).1 = true) ∧
    (failed_flag s = true → failed_flag (run N s events).1 = true) ∧
    (∀ bits : Nat,
      (xEventGroupWaitBits bits (WIFI_CONNECTED_BIT ||| WIFI_FAIL_BIT) pdFALSE pdFALSE).2
        = bits) ∧
    connected_flag (wifi_helper_connect N env s0).state
      = connected_flag
          (run N { s0 with event_bits := 0, s_sta_netif := env.sta_netif } env.events).1 ∧
    failed_flag (wifi_helper_connect N env s0).state
      = failed_flag
          (run N { s0 with event_bits := 0, s_sta_netif := env.sta_netif } env.events).1 := by
  refine ⟨handler_keeps_connected_flag N s b i, handler_keeps_failed_flag N s b i,
    run_keeps_connected_flag N events s, run_keeps_failed_flag N events s, ?_, ?_, ?_⟩
  · intro bits
    rw [wait_without_clear]
  · rw [wifi_helper_connect_of_setup N env s0 henv]
  · rw [wifi_helper_connect_of_setup N env s0 henv]

/-- C11, witness: with `max_retries = 0`, after a got-IP event and a disconnect
both flags are set when `wifi_helper_connect` returns, and a state with the
Failed flag set keeps it through a got-IP event. -/
theorem C11_terminal_flags_latch_witness :
    failed_flag (event_handler 0
        { event_bits := 2, s_sta_netif := some 7, s_connected := false, s_retry_num := 0 }
        IP_EVENT IP_EVENT_STA_GOT_IP).1 = true ∧
    connected_flag (wifi_helper_connect 0
        (working_env (some 7) [sta_start, got_ip, sta_disconnected])
        (initial_state none)).state
      = connected_flag (run 0
          { initial_state none with event_bits := 0, s_sta_netif := some 7 }
          [sta_start, got_ip, sta_disconnected]).1 :=
  ⟨(C11_terminal_flags_latch 0
      { event_bits := 2, s_sta_netif := some 7, s_connected := false, s_retry_num := 0 }
      IP_EVENT IP_EVENT_STA_GOT_IP []
      (working_env (some 7) [sta_start, got_ip, sta_disconnected]) (initial_state none)
      (working_env_setup_succeeds _ _)).2.1 (by decide),
   (C11_terminal_flags_latch 0
      { event_bits := 2, s_sta_netif := some 7, s_connected := false, s_retry_num := 0 }
      IP_EVENT IP_EVENT_STA_GOT_IP []
      (working_env (some 7) [sta_start, got_ip, sta_disconnected]) (initial_state none)
      (working_env_setup_succeeds _ _)).2.2.2.2.2.1⟩

theorem event_ne_of_base_ne (b c : esp_event_base_t) (i j : Int) (h : b ≠ c) :
    ((b, i) : Event) ≠ (c, j) :=
  fun e => h (congrArg Prod.fst e)

/-- An event that is none of the three the handler tests for changes nothing
and issues no connect request. -/
theorem handler_other_event (N : Int) (s : WifiState) (b : esp_event_base_t) (i : Int)
    (h1 : (b, i) ≠ sta_start) (h2 : (b, i) ≠ sta_disconnected) (h3 : (b, i) ≠ got_ip) :
    event_handler N s b i = (s, 0) := by
  unfold event_handler
  split_ifs with c1 c2 c3 c4
  · exact absurd (Prod.ext c1.1 c1.2) h1
  · exact absurd (Prod.ext c2.1 c2.2) h2
  · exact absurd (Prod.ext c2.1 c2.2) h2
  · exact absurd (Prod.ext c4.1 c4.2) h3
  · rfl

/-- C12: a station-started event issues exactly one connect request and leaves
the state as it is; every event that is none of (WiFi, station-started),
(WiFi, station-disconnected), (IP, got-IP) issues no connect request and leaves
the state as it is: in particular any other WiFi event id, the ids of the two
WiFi events under the IP family, the id of got-IP under the WiFi family, and
every event of another family. -/
theorem C12_start_and_other_events (N : Int) (s : WifiState) (b : esp_event_base_t)
    (i : Int) :
    event_handler N s WIFI_EVENT WIFI_EVENT_STA_START = (s, 1) ∧
    ((b, i) ≠ sta_start → (b, i) ≠ sta_disconnected → (b, i) ≠ got_ip →
      event_handler N s b i = (s, 0)) ∧
    (i ≠ WIFI_EVENT_STA_START → i ≠ WIFI_EVENT_STA_DISCONNECTED →
      event_handler N s WIFI_EVENT i = (s, 0)) ∧
    (i ≠ IP_EVENT_STA_GOT_IP → event_handler N s IP_EVENT i = (s, 0)) ∧
    event_handler N s IP_EVENT WIFI_EVENT_STA_START = (s, 0) ∧
    event_handler N s IP_EVENT WIFI_EVENT_STA_DISCONNECTED = (s, 0) ∧
    event_handler N s WIFI_EVENT IP_EVENT_STA_GOT_IP = (s, 0) ∧
    (∀ tag : Nat, event_handler N s (OTHER_EVENT tag) i = (s, 0)) := by
  refine ⟨handler_sta_start N s, handler_other_event N s b i, ?_, ?_, ?_, ?_, ?_, ?_⟩
  · intro h1 h2
    apply handler_other_event
    · intro h; exact h1 (congrArg Prod.snd h)
    · intro h; exact h2 (congrArg Prod.snd h)
    · exact event_ne_of_base_ne _ _ _ _ (by decide)
  · intro h1
    apply handler_other_event
    · exact event_ne_of_base_ne _ _ _ _ (by decide)
    · exact event_ne_of_base_ne _ _ _ _ (by decide)
    · intro h; exact h1 (congrArg Prod.snd h)
  · apply handler_other_event <;> decide
  · apply handler_other_event <;> decide
  · apply handler_other_event <;> decide
  · intro tag
    apply handler_other_event <;>
      exact event_ne_of_base_ne _ _ _ _ (fun h => by cases h)

/-- C12, witness: the WiFi event with id 4 (station connected) changes nothing
in a state with `retry_count = 3`. -/
theorem C12_start_and_other_events_witness :
    event_handler 5
        { event_bits := 0, s_sta_netif := some 7, s_connected := false, s_retry_num := 3 }
        WIFI_EVENT 4
      = ({ event_bits := 0, s_sta_netif := some 7, s_connected := false, s_retry_num := 3 },
         0) :=
  (C12_start_and_other_events 5
    { event_bits := 0, s_sta_netif := some 7, s_connected := false, s_retry_num := 3 }
    WIFI_EVENT 4).2.2.1 (by decide) (by decide)

theorem handler_retry_bounds (N : Int) (s : WifiState) (b : esp_event_base_t) (i : Int)
    (hN : 0 ≤ N) (h0 : 0 ≤ s.s_retry_num) (h1 : s.s_retry_num ≤ N) :
    0 ≤ (event_handler N s b i).1.s_retry_num ∧ (event_handler N s b i).1.s_retry_num ≤ N := by
  unfold event_handler
  split_ifs with c1 c2 c3 c4
  · exact ⟨h0, h1⟩
  · exact ⟨by simp only; omega, by simp only; omega⟩
  · exact ⟨h0, h1⟩
  · exact ⟨le_refl _, hN⟩
  · exact ⟨h0, h1⟩

theorem run_retry_bounds (N : Int) (events : List Event) (s : WifiState)
    (hN : 0 ≤ N) (h0 : 0 ≤ s.s_retry_num) (h1 : s.s_retry_num ≤ N) :
    0 ≤ (run N s events).1.s_retry_num ∧ (run N s events).1.s_retry_num ≤ N := by
  induction events generalizing s with
  | nil => exact ⟨h0, h1⟩
  | cons e rest ih =>
    rw [run_cons]
    have h := handler_retry_bounds N s e.1 e.2 hN h0 h1
    exact ih _ h.1 h.2

/-- With the counter within the budget and the Failed flag clear, an event
sets the Failed flag exactly when it is a disconnect met at `retry_count = N`. -/
theorem handler_sets_failed_iff (N : Int) (s : WifiState) (e : Event)
    (h1 : s.s_retry_num ≤ N) (hf : failed_flag s = false) :
    failed_flag (event_handler N s e.1 e.2).1 = true
      ↔ e = sta_disconnected ∧ s.s_retry_num = N := by
  by_cases hd : e = sta_disconnected
  · subst hd
    simp only [sta_disconnected, true_and]
    by_cases hlt : s.s_retry_num < N
    · rw [handler_disconnected_retry N s hlt]
      simp only [failed_flag] at hf ⊢
      simp only [hf]
      constructor
      · intro h; exact absurd h (by decide)
      · intro h; omega
    · rw [handler_disconnected_exhausted N s hlt]
      simp only [failed_flag, fail_after_set_fail, true_iff]
      omega
  · obtain ⟨b, i⟩ := e
    simp only [hd, false_and, iff_false]
    unfold event_handler
    simp only [failed_flag] at hf ⊢
    split_ifs with c1 c2 c3 c4
    · simp [hf]
    · exact absurd (Prod.ext c2.1 c2.2) hd
    · exact absurd (Prod.ext c2.1 c2.2) hd
    · simp [hf, fail_after_set_connected]
    · simp [hf]

/-- C13: for every `max_retries = N ≥ 0` and every event sequence applied to the
initial state, `0 ≤ retry_count ≤ N` in the resulting state; so with `N` an
`int` the counter and its increment stay in the range of `int`, and, while the
Failed flag is clear, the next event sets it exactly when it is a
station-disconnected event met at `retry_count = N`. -/
theorem C13_retry_count_within_budget (N : Int) (netif : Option Nat) (events : List Event)
    (e : Event) (hN : 0 ≤ N) :
    0 ≤ (run N (initial_state netif) events).1.s_retry_num ∧
    (run N (initial_state netif) events).1.s_retry_num ≤ N ∧
    (N ≤ MachineInt.INT_MAX →
      MachineInt.in_int_range (run N (initial_state netif) events).1.s_retry_num ∧
      ((run N (initial_state netif) events).1.s_retry_num < N →
        MachineInt.wrap_int ((run N (initial_state netif) events).1.s_retry_num + 1)
          = (run N (initial_state netif) events).1.s_retry_num + 1)) ∧
    (failed_flag (run N (initial_state netif) events).1 = false →
      (failed_flag (run N (initial_state netif) (events ++ [e])).1 = true
        ↔ e = sta_disconnected ∧ (run N (initial_state netif) events).1.s_retry_num = N)) := by
  have hb := run_retry_bounds N events (initial_state netif) hN (le_refl _) hN
  refine ⟨hb.1, hb.2, ?_, ?_⟩
  · intro hmax
    simp only [MachineInt.INT_MAX] at hmax
    refine ⟨⟨?_, ?_⟩, ?_⟩
    · simp only [MachineInt.INT_MIN]; omega
    · simp only [MachineInt.INT_MAX]; omega
    · intro hlt
      simp only [MachineInt.wrap_int]
      omega
  · intro hf
    rw [run_append, run_cons, run_nil]
    exact handler_sets_failed_iff N _ e hb.2 hf

/-- C13, witness: `max_retries = 2`; after station-started and two disconnects
the counter is `2`, within `0..2`. -/
theorem C13_retry_count_within_budget_witness :
    0 ≤ (run 2 (initial_state none)
        [sta_start, sta_disconnected, sta_disconnected]).1.s_retry_num ∧
    (run 2 (initial_state none)
        [sta_start, sta_disconnected, sta_disconnected]).1.s_retry_num ≤ 2 :=
  ⟨(C13_retry_count_within_budget 2 none [sta_start, sta_disconnected, sta_disconnected]
      sta_disconnected (by decide)).1,
   (C13_retry_count_within_budget 2 none [sta_start, sta_disconnected, sta_disconnected]
      sta_disconnected (by decide)).2.1⟩

end WifiHelper

/-! ## Math helpers -/

namespace Helpers

open MachineInt

theorem wrap_int_of_in_range (x : Int) (h : in_int_range x) : wrap_int x = x := by
  obtain ⟨h1, h2⟩ := h
  simp only [INT_MIN, INT_MAX] at h1 h2
  simp only [wrap_int]
  omega

theorem wrap_int_eq_zero_iff (a b : Int) (ha : in_int_range a) (hb : in_int_range b) :
    wrap_int (b - a) = 0 ↔ a = b := by
  obtain ⟨a1, a2⟩ := ha
  obtain ⟨b1, b2⟩ := hb
  simp only [INT_MIN, INT_MAX] at a1 a2 b1 b2
  simp only [wrap_int]
  omega

/-- C14: for `min ≤ max`, `constrain value min max` lies in `[min, max]`, is
`value` when `min ≤ value ≤ max`, is `min` when `value < min` and `max` when
`value > max`, and applying `constrain` again changes nothing. -/
theorem C14_constrain_clamps (value min max : Int) (h : min ≤ max) :
    (min ≤ constrain value min max ∧ constrain value min max ≤ max) ∧
    (min ≤ value → value ≤ max → constrain value min max = value) ∧
    (value < min → constrain value min max = min) ∧
    (value > max → constrain value min max = max) ∧
    constrain (constrain value min max) min max = constrain value min max := by
  have hrange : ∀ v : Int, min ≤ v → v ≤ max → constrain v min max = v := by
    intro v h1 h2
    unfold constrain
    rw [if_neg (by omega), if_neg (by omega)]
  have hin : min ≤ constrain value min max ∧ constrain value min max ≤ max := by
    unfold constrain
    split_ifs <;> constructor <;> omega
  refine ⟨hin, hrange value, ?_, ?_, hrange _ hin.1 hin.2⟩
  · intro hlt
    unfold constrain
    rw [if_pos hlt]
  · intro hgt
    unfold constrain
    rw [if_neg (by omega), if_pos hgt]

/-- C14, witness: clamping `300`, `-4` and `17` into `0..255`. -/
theorem C14_constrain_clamps_witness :
    constrain 300 0 255 = 255 ∧ constrain (-4) 0 255 = 0 ∧ constrain 17 0 255 = 17 :=
  ⟨(C14_constrain_clamps 300 0 255 (by decide)).2.2.2.1 (by decide),
   (C14_constrain_clamps (-4) 0 255 (by decide)).2.2.1 (by decide),
   (C14_constrain_clamps 17 0 255 (by decide)).2.1 (by decide) (by decide)⟩

/-- C15: for `int` arguments with `in_min ≠ in_max` such that `in_max - in_min`,
`out_max - out_min` and their product do not overflow, `map_range` sends
`in_min` to `out_min` and `in_max` to `out_max`; the division truncates toward
zero (`map_range(-1, 0, 2, 0, 1)` is `0`); and the divisor `in_max - in_min` is
zero, leaving the result undefined, exactly when `in_min = in_max`. -/
theorem C15_map_range_endpoints (in_min in_max out_min out_max : Int)
    (h1 : in_int_range in_min) (h2 : in_int_range in_max)
    (h3 : in_int_range out_min) (h4 : in_int_range out_max)
    (hne : in_min ≠ in_max)
    (hd : in_int_range (in_max - in_min)) (hs : in_int_range (out_max - out_min))
    (hp : in_int_range ((in_max - in_min) * (out_max - out_min))) :
    map_range in_min in_min in_max out_min out_max = some out_min ∧
    map_range in_max in_min in_max out_min out_max = some out_max ∧
    map_range (-1) 0 2 0 1 = some 0 ∧
    (∀ value a b c d : Int, in_int_range a → in_int_range b →
      (map_range value a b c d = none ↔ a = b)) := by
  have hdiv : wrap_int (in_max - in_min) ≠ 0 := fun h =>
    hne ((wrap_int_eq_zero_iff in_min in_max h1 h2).mp h)
  have hz : wrap_int 0 = 0 := by decide
  refine ⟨?_, ?_, by decide, ?_⟩
  · simp only [map_range, sub_self, hz, zero_mul, Int.zero_tdiv, zero_add, if_neg hdiv,
      wrap_int_of_in_range out_min h3]
  · have hd0 : in_max - in_min ≠ 0 := sub_ne_zero.mpr (Ne.symm hne)
    have hq : Int.tdiv ((in_max - in_min) * (out_max - out_min)) (in_max - in_min)
        = out_max - out_min := Int.mul_tdiv_cancel_left _ hd0
    simp only [map_range, wrap_int_of_in_range _ hd, wrap_int_of_in_range _ hs,
      wrap_int_of_in_range _ hp, if_neg hd0, hq, sub_add_cancel,
      wrap_int_of_in_range out_max h4]
  · intro value a b c d ha hb
    rw [← wrap_int_eq_zero_iff a b ha hb]
    simp only [map_range]
    split_ifs with h0
    · simp [h0]
    · simp [h0]

/-- C15, witness: mapping `0..1023` onto `0..255`. -/
theorem C15_map_range_endpoints_witness :
    map_range 0 0 1023 0 255 = some 0 ∧ map_range 1023 0 1023 0 255 = some 255 :=
  ⟨(C15_map_range_endpoints 0 1023 0 255 (by decide) (by decide) (by decide) (by decide)
      (by decide) (by decide) (by decide) (by decide)).1,
   (C15_map_range_endpoints 0 1023 0 255 (by decide) (by decide) (by decide) (by decide)
      (by decide) (by decide) (by decide) (by decide)).2.1⟩

end Helpers
